import Mathlib

/-!
Verification development for the AirSeal dependency-discovery and
build-descriptor engine (src/dependency_analyzer.py and src/docker_builder.py).

The Python code is shallowly embedded: file contents are abstracted by the
observations the scanners make of them (the parsed AST node list for the
Python handler, the ordered include-directive matches for the C/C++ handler,
and so on), the filesystem is an association list from path strings to such
contents, and the mutable analyzer state (the `analyzed_paths` set carried on
the `DependencyAnalyzer` instance) is threaded explicitly.  Python `set`
values of dataclass instances are modelled as insertion-ordered duplicate-free
lists: the dataclass-generated `__eq__` of `Dependency` compares all fields,
so set membership deduplicates by full structural equality.
-/

namespace AirSeal

/-- Split a character list at every occurrence of characters satisfying `f`;
the separators are dropped and empty pieces are kept, as in Python
`str.split(sep)`. -/
def splitPred (f : Char → Bool) : List Char → List (List Char)
  | [] => [[]]
  | a :: rest =>
    let r := splitPred f rest
    if f a then [] :: r
    else
      match r with
      | [] => [[a]]
      | h :: t => (a :: h) :: t

/-- Python `s.split(c)` for a one-character separator. -/
def splitString (c : Char) (s : String) : List String :=
  (splitPred (fun a => a = c) s.toList).map String.mk

/-- Python `sep.join(parts)`. -/
def joinWith (sep : String) : List String → String
  | [] => ""
  | [x] => x
  | x :: xs => x ++ sep ++ joinWith sep xs

/-- The whitespace characters Python `str.strip()`/`str.split()` act on. -/
def isPySpace (c : Char) : Bool :=
  c = ' ' || c = '\t' || c = '\n' || c = '\r' || c = '\x0b' || c = '\x0c'

/-- Python `str.strip()`. -/
def strTrim (s : String) : String :=
  String.mk ((s.toList.dropWhile isPySpace).reverse.dropWhile isPySpace).reverse

/-- Python `s.startswith(pre)`. -/
def strStartsWith (s pre : String) : Bool :=
  List.isPrefixOf pre.toList s.toList

/-- Python `str.split()` with no argument: split on whitespace runs. -/
def splitWhite (s : String) : List String :=
  ((splitPred isPySpace s.toList).map String.mk).filter (fun t => t ≠ "")

/-- `os.path.basename` / `pathlib.PurePath.name` for the slash-separated
paths used by the analyzer. -/
def basename (p : String) : String :=
  (splitString '/' p).getLastD p

/-- `os.path.dirname`: everything before the final slash, `""` when the path
has no directory component. -/
def dirname (p : String) : String :=
  let parts := splitString '/' p
  if parts.length ≤ 1 then "" else joinWith "/" parts.dropLast

/-- `os.path.join` restricted to the relative second arguments the analyzer
produces; joining onto the empty directory yields the bare name. -/
def joinPath (d f : String) : String :=
  if d = "" then f else d ++ "/" ++ f

/-- Index of the last `.` in a character list, if any. -/
def rfindDotIdx (cs : List Char) : Option Nat :=
  (List.range cs.length).foldl (fun acc i => if cs.getD i ' ' = '.' then some i else acc) none

/-- `pathlib.Path(p).suffix`: the extension starting at the last dot of the
final path component, provided that dot is neither leading nor trailing. -/
def pathSuffix (p : String) : String :=
  let nm := basename p
  let cs := nm.toList
  match rfindDotIdx cs with
  | none => ""
  | some i => if 0 < i ∧ i < cs.length - 1 then String.mk (cs.drop i) else ""

/-- `os.path.splitext(p)[0]`: the path with its suffix removed. -/
def splitExtBase (p : String) : String :=
  if pathSuffix p = "" then p
  else String.mk (p.toList.take (p.toList.length - (pathSuffix p).toList.length))

/-- The `Dependency` dataclass of src/dependency_analyzer.py, with its field
order.  Its `__hash__` is the tuple `(type, name, version, language)`, but the
dataclass-generated `__eq__` compares every field, so Python-set membership is
full structural equality. -/
structure Dependency where
  type : String
  name : String
  version : Option String := none
  source : Option String := none
  dependencies : Option (List String) := none
  language : String := ""
deriving DecidableEq, Repr

/-- Identity tuple named by the spec: `(kind, name, version, language)`. -/
def idTuple (d : Dependency) : String × String × Option String × String :=
  (d.type, d.name, d.version, d.language)

/-- Abstraction of the `ast` nodes `_analyze_python` inspects while walking
the parsed tree: `ast.Import` (with its alias names), `ast.ImportFrom` (with
its optional module), the `install_requires([...])` call pattern (with its
string-literal arguments), and any other node. -/
inductive PyNode
| imp (names : List String)
| impFrom (module : Option String)
| callInstallRequires (args : List String)
| other
deriving DecidableEq, Repr

/-- Abstraction of one `#include` directive match found by the two regex
scans of `_analyze_cpp`: a system include `#include <name>` or a local
include `#include "path"`. -/
inductive Inc
| sys (name : String)
| loc (path : String)
deriving DecidableEq, Repr

/-- Abstraction of a file content: the tuple of observations the
per-language scanners make of the text.  Each handler reads only the fields
of its own language; manifest files (requirements.txt, package.json,
build.gradle, pom.xml, CMakeLists.txt, go.mod, Cargo.toml) are files whose
relevant parse results sit in the corresponding fields. -/
structure FileData where
  /-- Result of `ast.parse` on the text; `none` means a parse failure. -/
  pyAst : Option (List PyNode) := none
  /-- The lines yielded by iterating the open file (requirements.txt). -/
  reqLines : List String := []
  /-- The include-directive matches, in order of appearance. -/
  cppIncs : List Inc := []
  /-- Matches of the `require(...)`/`import(...)` call regex. -/
  jsRequire : List String := []
  /-- Matches of the `import ... from "..."`/`export ... "..."` regex. -/
  jsImport : List String := []
  /-- `package ...;` declaration matches. -/
  javaPackages : List String := []
  /-- `import ...;` statement matches. -/
  javaImports : List String := []
  /-- `re.search` result for a `public class` name in the text. -/
  javaPublicClass : Option String := none
  /-- `implementation "..."` string matches of a build.gradle text. -/
  gradleImpl : List String := []
  /-- Maven `(groupId, artifactId, version?)` triples of a pom.xml text;
  `none` models a parse failure inside the pom handling. -/
  pomDeps : Option (List (String × String × Option String)) := none
  /-- `find_package(NAME [VERSION])` matches of a CMakeLists.txt text. -/
  cmakePkgs : List (String × Option String) := []
  /-- Raw line groups of Go `import ( ... )` blocks. -/
  goBlockImports : List (List String) := []
  /-- Single-line Go `import "..."` matches. -/
  goSingleImports : List String := []
  /-- Lines of a go.mod text. -/
  goModLines : List String := []
  /-- `use` path matches of a Rust text. -/
  rustUses : List String := []
  /-- `dependencies`/`dev-dependencies` tables of a Cargo.toml text, as
  `(name, version?)` pairs; `none` models a toml parse failure. -/
  cargoToml : Option (List (String × Option String) × List (String × Option String)) := none
  /-- `dependencies`/`devDependencies` tables of a package.json text;
  `none` models a `json.JSONDecodeError`. -/
  jsonPkg : Option (List (String × String) × List (String × String)) := none
deriving DecidableEq

/-- The filesystem visible to one analysis: an association list from path to
content, first binding wins. -/
abbrev FS := List (String × FileData)

/-- `open(p)` / `os.path.exists(p)` against the modelled filesystem. -/
def lookupFS (fs : FS) (p : String) : Option FileData :=
  match fs with
  | [] => none
  | (k, v) :: rest => if k = p then some v else lookupFS rest p

/-- `set.add` on a Python set of `Dependency` values, modelled as an
insertion-ordered duplicate-free list: membership is the dataclass full-field
equality. -/
def insertDep (l : List Dependency) (d : Dependency) : List Dependency :=
  if d ∈ l then l else l ++ [d]

/-- Python `str.strip()` on the whitespace the analyzer encounters. -/
def pyStrip (s : String) : String := strTrim s

/-- `re.split("[><=~]", s)[0]`: the prefix of `s` before the first
version-comparison operator character. -/
def splitVerOp (s : String) : String :=
  String.mk (s.toList.takeWhile (fun c => !(c == '<' || c == '>' || c == '=' || c == '~')))

/-- The enumerated standard-library exclusion set used when classifying
Python module names. -/
def pythonStdlibExclusions : List String :=
  ["os", "sys", "re", "json", "ast", "subprocess", "tempfile", "pathlib",
   "typing", "dataclasses", "math", "time", "datetime", "collections",
   "itertools", "functools", "io", "shutil", "base64", "random", "string",
   "logging", "unittest", "abc", "argparse", "copy", "enum", "hashlib",
   "http", "socket", "threading", "urllib"]

/-- Modelled from the spec: `_get_python_package_info` is invoked by
`_analyze_python` (src/dependency_analyzer.py lines 81 and 87) but its
definition is not among the files under src/.  Per the spec it collects the
top-level module name and excludes standard-library names via an enumerated
exclusion set (not a heuristic); surviving names become `package`
dependencies tagged `python`.  The spec attaches no `source_path` to Python
dependencies, so none is set. -/
def getPythonPackageInfo (name : String) : Option Dependency :=
  let top := (splitString '.' name).headD name
  if top ∈ pythonStdlibExclusions then none
  else some { type := "package", name := top, language := "python" }

/-- `_analyze_python`: walk the parsed tree collecting imports and
`install_requires` arguments, then read a sibling requirements.txt.  A parse
failure is caught by the handler's own `except` clause, which returns the
(empty) set collected so far and skips the requirements step. -/
def analyzePython (fd : FileData) (filePath : String) (fs : FS) : List Dependency :=
  match fd.pyAst with
  | none => []
  | some nodes =>
    let deps := nodes.foldl (fun acc node =>
      match node with
      | PyNode.imp names =>
        names.foldl (fun a n =>
          match getPythonPackageInfo n with
          | some d => insertDep a d
          | none => a) acc
      | PyNode.impFrom (some m) =>
        (match getPythonPackageInfo m with
         | some d => insertDep acc d
         | none => acc)
      | PyNode.impFrom none => acc
      | PyNode.callInstallRequires args =>
        args.foldl (fun a s =>
          insertDep a { type := "package", name := pyStrip (splitVerOp s), language := "python" }) acc
      | PyNode.other => acc) []
    let reqFile := joinPath (dirname filePath) "requirements.txt"
    match lookupFS fs reqFile with
    | none => deps
    | some reqFd =>
      reqFd.reqLines.foldl (fun a line =>
        if pyStrip line ≠ "" ∧ strStartsWith line "#" = false then
          insertDep a { type := "package", name := pyStrip (splitVerOp line), language := "python" }
        else a) deps

/-- `_analyze_javascript`: the two regex passes add `module` dependencies,
then a sibling package.json contributes `package` dependencies with their
recorded versions (a decode error is swallowed). -/
def analyzeJavascript (fd : FileData) (filePath : String) (fs : FS) : List Dependency :=
  let deps := (fd.jsRequire ++ fd.jsImport).foldl (fun a n =>
    insertDep a { type := "module", name := n, language := "javascript" }) []
  let pkgFile := joinPath (dirname filePath) "package.json"
  match lookupFS fs pkgFile with
  | none => deps
  | some pfd =>
    match pfd.jsonPkg with
    | none => deps
    | some (ds, dev) =>
      (ds ++ dev).foldl (fun a nv =>
        insertDep a { type := "package", name := nv.1, version := some nv.2, language := "javascript" }) deps

/-- `_analyze_java`: package and import matches, then a sibling build.gradle
(preferred) or pom.xml contributes versioned `package` dependencies. -/
def analyzeJava (fd : FileData) (filePath : String) (fs : FS) : List Dependency :=
  let deps := fd.javaPackages.foldl (fun a n =>
    insertDep a { type := "package", name := n, language := "java" }) []
  let deps := fd.javaImports.foldl (fun a n =>
    insertDep a { type := "package", name := n, language := "java" }) deps
  let gradleFile := joinPath (dirname filePath) "build.gradle"
  let pomFile := joinPath (dirname filePath) "pom.xml"
  match lookupFS fs gradleFile with
  | some gfd =>
    gfd.gradleImpl.foldl (fun a depStr =>
      let parts := splitString ':' depStr
      if parts.length ≥ 2 then
        insertDep a { type := "package",
                      name := parts.headD "" ++ ":" ++ (parts.getD 1 ""),
                      version := if parts.length > 2 then some (parts.getD 2 "") else none,
                      language := "java" }
      else a) deps
  | none =>
    match lookupFS fs pomFile with
    | some pfd =>
      match pfd.pomDeps with
      | some l =>
        l.foldl (fun a t =>
          insertDep a { type := "package", name := t.1 ++ ":" ++ t.2.1,
                        version := t.2.2, language := "java" }) deps
      | none => deps
    | none => deps

/-- `_analyze_cpp`: the system-include pass, then the local-include pass
(resolving each quoted path against the file's directory and recording it as
`source` when it exists), then a sibling CMakeLists.txt's `find_package`
matches. -/
def analyzeCpp (fd : FileData) (filePath : String) (fs : FS) : List Dependency :=
  let deps := (fd.cppIncs.filterMap (fun i => match i with | Inc.sys n => some n | Inc.loc _ => none)).foldl
    (fun a n => insertDep a { type := "header", name := n, language := "cpp" }) []
  let deps := (fd.cppIncs.filterMap (fun i => match i with | Inc.loc p => some p | Inc.sys _ => none)).foldl
    (fun a ip =>
      let fullPath := joinPath (dirname filePath) ip
      if (lookupFS fs fullPath).isSome then
        insertDep a { type := "header", name := ip, source := some fullPath, language := "cpp" }
      else a) deps
  let cmakeFile := joinPath (dirname filePath) "CMakeLists.txt"
  match lookupFS fs cmakeFile with
  | none => deps
  | some cfd =>
    cfd.cmakePkgs.foldl (fun a nv =>
      insertDep a { type := "package", name := nv.1, version := nv.2, language := "cpp" }) deps

/-- Python `str.strip(c)` specialised to stripping quote characters. -/
def stripQuotes (s : String) : String :=
  let l := (s.toList.dropWhile (fun c => c == '"')).reverse.dropWhile (fun c => c == '"')
  String.mk l.reverse

/-- `_analyze_go`: block and single-line import matches, then a sibling
go.mod's `require ` lines. -/
def analyzeGo (fd : FileData) (filePath : String) (fs : FS) : List Dependency :=
  let deps := fd.goBlockImports.foldl (fun a block =>
    block.foldl (fun a2 line =>
      let imp := stripQuotes (pyStrip line)
      if imp ≠ "" ∧ strStartsWith imp "//" = false then
        insertDep a2 { type := "package", name := imp, language := "go" }
      else a2) a) []
  let deps := fd.goSingleImports.foldl (fun a n =>
    insertDep a { type := "package", name := n, language := "go" }) deps
  let goMod := joinPath (dirname filePath) "go.mod"
  match lookupFS fs goMod with
  | none => deps
  | some mfd =>
    mfd.goModLines.foldl (fun a line =>
      if strStartsWith line "require " then
        let parts := splitWhite line
        if parts.length ≥ 2 then
          insertDep a { type := "package", name := parts.getD 1 "",
                        version := parts.get? 2, language := "go" }
        else a
      else a) deps

/-- `_analyze_rust`: `use` path matches as `module` dependencies, then a
sibling Cargo.toml's dependency tables as versioned `crate` dependencies
(a toml parse failure keeps the set collected so far). -/
def analyzeRust (fd : FileData) (filePath : String) (fs : FS) : List Dependency :=
  let deps := fd.rustUses.foldl (fun a n =>
    insertDep a { type := "module", name := n, language := "rust" }) []
  let cargoFile := joinPath (dirname filePath) "Cargo.toml"
  match lookupFS fs cargoFile with
  | none => deps
  | some cfd =>
    match cfd.cargoToml with
    | none => deps
    | some (ds, dev) =>
      (ds ++ dev).foldl (fun a nv =>
        insertDep a { type := "crate", name := nv.1, version := nv.2, language := "rust" }) deps

/-- The keys of the `language_handlers` dispatch table. -/
def supportedExtensions : List String :=
  [".py", ".java", ".js", ".cpp", ".hpp", ".h", ".go", ".rs"]

/-- `self.language_handlers[ext](content, file_path)`. -/
def runHandler (ext : String) (fd : FileData) (filePath : String) (fs : FS) : List Dependency :=
  if ext = ".py" then analyzePython fd filePath fs
  else if ext = ".java" then analyzeJava fd filePath fs
  else if ext = ".js" then analyzeJavascript fd filePath fs
  else if ext = ".cpp" ∨ ext = ".hpp" ∨ ext = ".h" then analyzeCpp fd filePath fs
  else if ext = ".go" then analyzeGo fd filePath fs
  else if ext = ".rs" then analyzeRust fd filePath fs
  else []

/-- The path keys of the modelled filesystem. -/
def fsKeys (fs : FS) : List String := fs.map Prod.fst

/-- Number of filesystem paths not yet marked visited; first component of
the termination measure of the resolution loop. -/
def unvisitedCount (fs : FS) (visited : List String) : Nat :=
  ((fsKeys fs).filter (fun k => decide (k ∉ visited))).length

theorem length_filter_mono {α : Type} (l : List α) (f g : α → Bool)
    (h : ∀ a, f a = true → g a = true) :
    (l.filter f).length ≤ (l.filter g).length := by
  induction l with
  | nil => simp
  | cons a tl ih =>
    by_cases hf : f a = true
    · simp [List.filter, hf, h a hf, Nat.succ_le_succ ih]
    · have hf' : f a = false := by simpa using hf
      by_cases hg : g a = true
      · simp only [List.filter, hf', hg]
        exact Nat.le_succ_of_le ih
      · have hg' : g a = false := by simpa using hg
        simp only [List.filter, hf', hg']
        exact ih

theorem length_filter_strict {α : Type} [DecidableEq α] (l : List α) (f g : α → Bool)
    (h : ∀ a, f a = true → g a = true) (p : α)
    (hp : p ∈ l) (hfp : f p = false) (hgp : g p = true) :
    (l.filter f).length < (l.filter g).length := by
  induction l with
  | nil => simp at hp
  | cons a tl ih =>
    rcases List.mem_cons.mp hp with rfl | hmem
    · simp only [List.filter, hfp, hgp]
      exact Nat.lt_succ_of_le (length_filter_mono tl f g h)
    · by_cases hf : f a = true
      · have hg : g a = true := h a hf
        simp only [List.filter, hf, hg, List.length_cons]
        exact Nat.succ_lt_succ (ih hmem)
      · have hf' : f a = false := by simpa using hf
        by_cases hg : g a = true
        · simp only [List.filter, hf', hg]
          exact Nat.lt_succ_of_lt (ih hmem)
        · have hg' : g a = false := by simpa using hg
          simp only [List.filter, hf', hg']
          exact ih hmem

theorem unvisitedCount_append_le (fs : FS) (visited : List String) (p : String) :
    unvisitedCount fs (visited ++ [p]) ≤ unvisitedCount fs visited := by
  apply length_filter_mono
  intro a ha
  simp only [decide_eq_true_eq] at ha ⊢
  intro hmem
  exact ha (List.mem_append_left _ hmem)

theorem unvisitedCount_append_lt (fs : FS) (visited : List String) (p : String)
    (hkey : p ∈ fsKeys fs) (hnv : p ∉ visited) :
    unvisitedCount fs (visited ++ [p]) < unvisitedCount fs visited := by
  have h : ∀ a : String, decide (a ∉ visited ++ [p]) = true → decide (a ∉ visited) = true := by
    intro a ha
    simp only [decide_eq_true_eq] at ha ⊢
    intro hmem
    exact ha (List.mem_append_left _ hmem)
  exact length_filter_strict (fsKeys fs) _ _ h p hkey (by simp) (by simpa using hnv)

theorem lookupFS_some_key {fs : FS} {p : String} {fd : FileData}
    (h : lookupFS fs p = some fd) : p ∈ fsKeys fs := by
  induction fs with
  | nil => simp [lookupFS] at h
  | cons kv rest ih =>
    by_cases hk : kv.1 = p
    · simp [fsKeys, hk]
    · simp only [lookupFS, hk, if_false] at h
      exact List.mem_cons_of_mem _ (ih h)

/-- The deps with a `source` that exists on disk: the paths
`_analyze_dependency_recursive` recurses into, in the order the loop over
`direct_deps` meets them. -/
def localSources (fs : FS) (deps : List Dependency) : List String :=
  deps.filterMap (fun d =>
    match d.source with
    | some s => if (lookupFS fs s).isSome then some s else none
    | none => none)

/-- The recursion of `_analyze_file_recursive` / `_analyze_dependency_recursive`,
written as the equivalent explicit depth-first worklist (newly discovered
local sources are prepended, so files are visited in exactly the order the
Python recursion visits them).  Besides the visited paths and the accumulated
dependency set it returns the list of extraction events: the paths on which a
language handler was actually run, in order.  A path already in `visited` is
skipped; a path whose `open` fails (absent from the filesystem) or whose
extension has no handler (the `KeyError` swallowed by the bare `except`) is
marked visited but yields no event. -/
def resolve (fs : FS) (visited : List String) (worklist : List String)
    (acc : List Dependency) : List String × List Dependency × List String :=
  match worklist with
  | [] => (visited, acc, [])
  | p :: rest =>
    if hv : p ∈ visited then
      resolve fs visited rest acc
    else
      match hl : lookupFS fs p with
      | none => resolve fs (visited ++ [p]) rest acc
      | some fd =>
        if pathSuffix p ∈ supportedExtensions then
          let direct := runHandler (pathSuffix p) fd p fs
          let r := resolve fs (visited ++ [p]) (localSources fs direct ++ rest)
            (direct.foldl insertDep acc)
          (r.1, r.2.1, p :: r.2.2)
        else
          resolve fs (visited ++ [p]) rest acc
termination_by (unvisitedCount fs visited, worklist.length)
decreasing_by
  · exact Prod.Lex.right _ (Nat.lt_succ_self _)
  · rcases Nat.lt_or_eq_of_le (unvisitedCount_append_le fs visited p) with h | h
    · exact Prod.Lex.left _ _ h
    · rw [h]; exact Prod.Lex.right _ (Nat.lt_succ_self _)
  · exact Prod.Lex.left _ _ (unvisitedCount_append_lt fs visited p (lookupFS_some_key hl) hv)
  · exact Prod.Lex.left _ _ (unvisitedCount_append_lt fs visited p (lookupFS_some_key hl) hv)

/-- The mutable state of a `DependencyAnalyzer` instance: `self.analyzed_paths`,
created once in `__init__` and never reset by `analyze`. -/
structure AnalyzerState where
  analyzedPaths : List String := []
deriving DecidableEq, Repr

/-- `DependencyAnalyzer.analyze`: reject unregistered extensions with the
`ValueError` before any file access, otherwise run the recursive resolution
starting from the entry path with the instance's current visited set. -/
def analyze (st : AnalyzerState) (fs : FS) (filePath : String) :
    Except String (AnalyzerState × List Dependency) :=
  let ext := pathSuffix filePath
  if ext ∈ supportedExtensions then
    let r := resolve fs st.analyzedPaths [filePath] []
    Except.ok ({ analyzedPaths := r.1 }, r.2.1)
  else
    Except.error ("Unsupported file type: " ++ ext)

theorem resolve_nil (fs : FS) (visited : List String) (acc : List Dependency) :
    resolve fs visited [] acc = (visited, acc, []) := by
  rw [resolve]

theorem resolve_mem (fs : FS) {visited : List String} {p : String} (rest : List String)
    (acc : List Dependency) (h : p ∈ visited) :
    resolve fs visited (p :: rest) acc = resolve fs visited rest acc := by
  rw [resolve]
  rw [dif_pos h]

theorem resolve_absent (fs : FS) {visited : List String} {p : String} (rest : List String)
    (acc : List Dependency) (h : p ∉ visited) (h2 : lookupFS fs p = none) :
    resolve fs visited (p :: rest) acc = resolve fs (visited ++ [p]) rest acc := by
  rw [resolve]
  rw [dif_neg h]
  split
  · rfl
  · next fd hl => rw [h2] at hl; simp at hl

theorem resolve_hit (fs : FS) {visited : List String} {p : String} (rest : List String)
    (acc : List Dependency) (fd : FileData) (h : p ∉ visited)
    (h2 : lookupFS fs p = some fd) (h3 : pathSuffix p ∈ supportedExtensions) :
    resolve fs visited (p :: rest) acc =
      (let direct := runHandler (pathSuffix p) fd p fs
       let r := resolve fs (visited ++ [p]) (localSources fs direct ++ rest)
         (direct.foldl insertDep acc)
       (r.1, r.2.1, p :: r.2.2)) := by
  rw [resolve]
  rw [dif_neg h]
  split
  · next hl => rw [h2] at hl; simp at hl
  · next fd' hl =>
      rw [h2] at hl
      injection hl with hfd
      subst hfd
      rw [if_pos h3]

theorem resolve_nohandler (fs : FS) {visited : List String} {p : String} (rest : List String)
    (acc : List Dependency) (fd : FileData) (h : p ∉ visited)
    (_h2 : lookupFS fs p = some fd) (h3 : pathSuffix p ∉ supportedExtensions) :
    resolve fs visited (p :: rest) acc = resolve fs (visited ++ [p]) rest acc := by
  rw [resolve]
  rw [dif_neg h]
  split
  · rfl
  · next fd' hl => rw [if_neg h3]

/-!  The DockerBuilder side (src/docker_builder.py).  The external container
build service is modelled as a Boolean oracle `dockerRun imageName dockerfile`
standing for `subprocess.run(["docker", "build", ...], check=True)`; the
functions below compute the texts the builder writes into its build context
and the image name it returns. -/

/-- Python truthiness of `v or dflt` on an optional string: `None` and the
empty string both fall back. -/
def pyOr (v : Option String) (dflt : String) : String :=
  match v with
  | some s => if s = "" then dflt else s
  | none => dflt

/-- `_generate_dockerfile`: the f-string template with `chr(10).join`-ed
command blocks. -/
def generateDockerfile (baseImage : String) (depsCommands buildCommands : List String)
    (runCommand : String) : String :=
  "\nFROM " ++ baseImage ++ "\nWORKDIR /app\n" ++ joinWith "\n" depsCommands ++
  "\nCOPY . .\n" ++ joinWith "\n" buildCommands ++ "\nCMD " ++ runCommand ++ "\n"

/-- One line of the requirements file `_build_python_image` writes:
`f"{dep.name}{f'=={dep.version}' if dep.version else ''}\n"`. -/
def renderRequirement (dep : Dependency) : String :=
  dep.name ++ (match dep.version with
               | some v => if v = "" then "" else "==" ++ v
               | none => "") ++ "\n"

/-- The content of the requirements.txt `_build_python_image` writes into the
build context: the `package`-typed dependencies in the order the dependency
list is enumerated, nothing sorted. -/
def requirementsText (dependencies : List Dependency) : String :=
  dependencies.foldl (fun acc dep =>
    if dep.type = "package" then acc ++ renderRequirement dep else acc) ""

/-- The Dockerfile text `_build_python_image` generates; it depends only on
the entry file's basename. -/
def pythonDockerfile (filePath : String) : String :=
  generateDockerfile "python:3.9-slim"
    ["COPY requirements.txt .", "RUN pip install --no-cache-dir -r requirements.txt"]
    []
    ("[\"python\", \"" ++ basename filePath ++ "\"]")

/-- `_build_from_dockerfile`: tag the image after the entry file's basename
and hand the context to the external build; a build failure (the
`CalledProcessError`) yields `None`. -/
def buildFromDockerfile (dockerRun : String → String → Bool)
    (filePath dockerfileContent : String) : Option String :=
  let imageName := "airseal-app:" ++ basename filePath
  if dockerRun imageName dockerfileContent then some imageName else none

/-- `_build_python_image`: analyze, write the requirements file, copy the
entry source (which must exist, else the `open` raises and the `except`
returns `None`), build. -/
def buildPythonImage (dockerRun : String → String → Bool) (fs : FS)
    (st : AnalyzerState) (filePath : String) : Option String :=
  match analyze st fs filePath with
  | Except.error _ => none
  | Except.ok (_, dependencies) =>
    let _requirements := requirementsText dependencies
    match lookupFS fs filePath with
    | none => none
    | some _ => buildFromDockerfile dockerRun filePath (pythonDockerfile filePath)

/-- `_build_java_image`: read the entry file to find the public class name,
then compile-and-jar inside the image. -/
def buildJavaImage (dockerRun : String → String → Bool) (fs : FS)
    (_st : AnalyzerState) (filePath : String) : Option String :=
  match lookupFS fs filePath with
  | none => none
  | some fd =>
    let filename := match fd.javaPublicClass with
                    | some cls => cls ++ ".java"
                    | none => basename filePath
    let baseName := splitExtBase filename
    buildFromDockerfile dockerRun filePath (generateDockerfile "openjdk:11-jdk-slim"
      []
      ["RUN mkdir -p build && \\\n    javac -d build " ++ filename ++
       " || echo \x27Compilation failed\x27 && \\\n    cd build && \\\n    jar cfe " ++
       baseName ++ ".jar " ++ baseName ++ " *.class || echo \x27Jar creation failed\x27"]
      ("[\"java\", \"-jar\", \"build/" ++ baseName ++ ".jar\"]"))

/-- The module-level names bound in docker_builder.py by its imports (plus
the class it defines).  The name `json` is not among them: the module never
imports `json`. -/
def dockerBuilderGlobals : List String :=
  ["Optional", "Dict", "os", "tempfile", "subprocess", "Path",
   "DependencyAnalyzer", "Dependency", "DockerBuilder"]

/-- Resolution of a global name inside docker_builder.py; an unbound name
raises `NameError`. -/
def lookupGlobal (n : String) : Except String Unit :=
  if n ∈ dockerBuilderGlobals then Except.ok () else
    Except.error ("NameError: name " ++ n ++ " is not defined")

/-- `_build_node_image`: analyze, assemble the package.json table, then call
`json.dump` — which first resolves the module-global name `json`; since
docker_builder.py never imports it, that lookup raises `NameError`, the
surrounding `except Exception` catches it, and the builder returns `None`
before any build is attempted. -/
def buildNodeImage (dockerRun : String → String → Bool) (fs : FS)
    (st : AnalyzerState) (filePath : String) : Option String :=
  match analyze st fs filePath with
  | Except.error _ => none
  | Except.ok (_, dependencies) =>
    let _packageJsonDeps := dependencies.foldl (fun m dep =>
      if dep.type = "package" then m ++ [(dep.name, pyOr dep.version "latest")] else m)
      ([] : List (String × String))
    match lookupGlobal "json" with
    | Except.error _ => none
    | Except.ok _ =>
      buildFromDockerfile dockerRun filePath (generateDockerfile "node:16-slim"
        ["COPY package.json .", "RUN npm install"]
        []
        ("[\"node\", \"" ++ basename filePath ++ "\"]"))

/-- The CMakeLists.txt text `_build_cpp_image` writes. -/
def cppCmakeText (dependencies : List Dependency) (filePath : String) : String :=
  "\ncmake_minimum_required(VERSION 3.10)\nproject(app)\n\nset(CMAKE_CXX_STANDARD 17)\n" ++
  dependencies.foldl (fun acc dep =>
    if dep.type = "package" then acc ++ "\nfind_package(" ++ dep.name ++ " REQUIRED)" else acc) "" ++
  "\nadd_executable(app " ++ basename filePath ++ ")\n"

/-- `_build_cpp_image`. -/
def buildCppImage (dockerRun : String → String → Bool) (fs : FS)
    (st : AnalyzerState) (filePath : String) : Option String :=
  match analyze st fs filePath with
  | Except.error _ => none
  | Except.ok (_, dependencies) =>
    let _cmake := cppCmakeText dependencies filePath
    buildFromDockerfile dockerRun filePath (generateDockerfile "gcc:latest"
      ["RUN apt-get update && apt-get install -y cmake"]
      ["RUN cmake . && make"]
      "[\"./app\"]")

/-- The go.mod text `_build_go_image` writes. -/
def goModText (dependencies : List Dependency) : String :=
  "module app\n\ngo 1.16\n\nrequire (\n" ++
  dependencies.foldl (fun acc dep =>
    if dep.type = "package" then acc ++ "\t" ++ dep.name ++ " " ++ pyOr dep.version "latest" ++ "\n"
    else acc) "" ++
  ")\n"

/-- `_build_go_image`. -/
def buildGoImage (dockerRun : String → String → Bool) (fs : FS)
    (st : AnalyzerState) (filePath : String) : Option String :=
  match analyze st fs filePath with
  | Except.error _ => none
  | Except.ok (_, dependencies) =>
    let _gomod := goModText dependencies
    buildFromDockerfile dockerRun filePath (generateDockerfile "golang:1.16"
      ["COPY go.mod .", "RUN go mod download"]
      ["RUN go build -o app"]
      "[\"./app\"]")

/-- The Cargo.toml table `_build_rust_image` hands to `toml.dump`. -/
def cargoTomlText (dependencies : List Dependency) : String :=
  "[package]\nname = \"app\"\nversion = \"0.1.0\"\nedition = \"2021\"\n\n[dependencies]\n" ++
  dependencies.foldl (fun acc dep =>
    if dep.type = "crate" then acc ++ dep.name ++ " = \"" ++ pyOr dep.version "*" ++ "\"\n"
    else acc) ""

/-- `_build_rust_image`. -/
def buildRustImage (dockerRun : String → String → Bool) (fs : FS)
    (st : AnalyzerState) (filePath : String) : Option String :=
  match analyze st fs filePath with
  | Except.error _ => none
  | Except.ok (_, dependencies) =>
    let _cargo := cargoTomlText dependencies
    buildFromDockerfile dockerRun filePath (generateDockerfile "rust:1.60"
      ["COPY Cargo.toml .",
       "RUN mkdir src && echo \x27fn main() \x7b\x7d\x27 > src/main.rs",
       "RUN cargo build --release",
       "RUN rm -rf src"]
      ["RUN cargo build --release"]
      "[\"./target/release/app\"]")

/-- `DockerBuilder.build`: dispatch on the entry file's extension (note the
builder table registers fewer extensions than the analyzer: no `.hpp`/`.h`). -/
def build (dockerRun : String → String → Bool) (fs : FS)
    (st : AnalyzerState) (filePath : String) : Option String :=
  let ext := pathSuffix filePath
  if ext = ".py" then buildPythonImage dockerRun fs st filePath
  else if ext = ".java" then buildJavaImage dockerRun fs st filePath
  else if ext = ".js" then buildNodeImage dockerRun fs st filePath
  else if ext = ".cpp" then buildCppImage dockerRun fs st filePath
  else if ext = ".go" then buildGoImage dockerRun fs st filePath
  else if ext = ".rs" then buildRustImage dockerRun fs st filePath
  else none

/-!  Claim theorems. -/

/-- C3: for every entry file path whose extension is not one of the
registered supported extensions (.py, .java, .js, .cpp, .hpp, .h, .go, .rs),
`analyze` fails with the unsupported-language `ValueError` before any of the
file's content is read: the result is the same error for every filesystem,
so it cannot depend on any file content. -/
theorem C3_unsupported_extension_fails_before_read (st : AnalyzerState) (fs : FS)
    (p : String) (h : pathSuffix p ∉ supportedExtensions) :
    analyze st fs p = Except.error ("Unsupported file type: " ++ pathSuffix p) := by
  unfold analyze
  rw [if_neg h]

/-- Witness for C3 at the entry file `script.rb` of Scenario E, on a
filesystem that does contain the file: the error is produced without
consulting it. -/
theorem C3_witness :
    pathSuffix "script.rb" ∉ supportedExtensions ∧
      analyze { analyzedPaths := [] } [("script.rb", { pyAst := some [] })] "script.rb" =
        Except.error ("Unsupported file type: " ++ pathSuffix "script.rb") :=
  ⟨by decide,
   C3_unsupported_extension_fails_before_read { analyzedPaths := [] }
     [("script.rb", { pyAst := some [] })] "script.rb" (by decide)⟩

/-- C5: for every filesystem (hence for every local-include graph, cyclic
ones included) the resolution loop — which is total, being defined by
well-founded recursion on the number of unvisited filesystem paths — runs a
language handler on pairwise-distinct paths (each file is extracted at most
once), and never on a path already marked visited at the start. -/
theorem C5_resolver_extracts_each_path_at_most_once (fs : FS)
    (visited worklist : List String) (acc : List Dependency) :
    ((resolve fs visited worklist acc).2.2).Nodup ∧
      ∀ p, p ∈ (resolve fs visited worklist acc).2.2 → p ∉ visited := by
  refine resolve.induct fs (fun visited worklist acc =>
    ((resolve fs visited worklist acc).2.2).Nodup ∧
      ∀ p, p ∈ (resolve fs visited worklist acc).2.2 → p ∉ visited)
    ?_ ?_ ?_ ?_ ?_ visited worklist acc
  · intro visited acc
    rw [resolve_nil]
    simp
  · intro visited acc p rest hp ih
    rw [resolve_mem fs rest acc hp]
    exact ih
  · intro visited acc p rest hp hl ih
    rw [resolve_absent fs rest acc hp hl]
    exact ⟨ih.1, fun q hq hmem => ih.2 q hq (List.mem_append_left _ hmem)⟩
  · intro visited acc p rest hp fd hl h3 direct ih
    rw [resolve_hit fs rest acc fd hp hl h3]
    show (p :: (resolve fs (visited ++ [p])
        (localSources fs (runHandler (pathSuffix p) fd p fs) ++ rest)
        (List.foldl insertDep acc (runHandler (pathSuffix p) fd p fs))).2.2).Nodup ∧ _
    constructor
    · refine List.nodup_cons.mpr ⟨fun hmem => ?_, ih.1⟩
      exact ih.2 p hmem (List.mem_append_right _ (List.mem_singleton.mpr rfl))
    · intro q hq
      rcases List.mem_cons.mp hq with rfl | hq'
      · exact hp
      · exact fun hmem => ih.2 q hq' (List.mem_append_left _ hmem)
  · intro visited acc p rest hp fd hl h3 ih
    rw [resolve_nohandler fs rest acc fd hp hl h3]
    exact ⟨ih.1, fun q hq hmem => ih.2 q hq (List.mem_append_left _ hmem)⟩

/-- A two-file cyclic include graph: `a.h` includes `b.h` and `b.h` includes
`a.h`. -/
def cycFS : FS :=
  [("a.h", { cppIncs := [Inc.loc "b.h"] }), ("b.h", { cppIncs := [Inc.loc "a.h"] })]

/-- The dependency recorded for the include of `b.h`. -/
def depBH : Dependency :=
  { type := "header", name := "b.h", source := some "b.h", language := "cpp" }

/-- The dependency recorded for the include of `a.h`. -/
def depAH : Dependency :=
  { type := "header", name := "a.h", source := some "a.h", language := "cpp" }

/-- Resolution of the cyclic graph `cycFS` terminates with each of the two
files extracted exactly once. -/
theorem cycFS_eval : resolve cycFS [] ["a.h"] [] =
    (["a.h", "b.h"], [depBH, depAH], ["a.h", "b.h"]) := by
  rw [resolve_hit cycFS [] [] { cppIncs := [Inc.loc "b.h"] } (by decide) (by decide) (by decide)]
  show (let r := resolve cycFS ["a.h"] ["b.h"] [depBH]; (r.1, r.2.1, "a.h" :: r.2.2)) = _
  rw [resolve_hit cycFS [] [depBH] { cppIncs := [Inc.loc "a.h"] } (by decide) (by decide) (by decide)]
  show (let r := resolve cycFS ["a.h", "b.h"] ["a.h"] [depBH, depAH]
        (r.1, r.2.1, "a.h" :: "b.h" :: r.2.2)) = _
  rw [resolve_mem cycFS [] [depBH, depAH] (by decide)]
  rw [resolve_nil]

/-- Witness for C5 on the concrete cyclic graph `cycFS`. -/
theorem C5_witness :
    ((resolve cycFS [] ["a.h"] []).2.2).Nodup ∧ ("a.h" : String) ∉ ([] : List String) :=
  ⟨(C5_resolver_extracts_each_path_at_most_once cycFS [] ["a.h"] []).1,
   (C5_resolver_extracts_each_path_at_most_once cycFS [] ["a.h"] []).2 "a.h"
     (by rw [cycFS_eval]; decide)⟩

/-- C10: for every JavaScript entry file (extension `.js`),
`DockerBuilder.build()` returns `None` and never produces an image name:
`_build_node_image` writes package.json through the name `json`, which
docker_builder.py never imports, so the write raises `NameError`, the
surrounding handler catches it, and `None` is returned — whatever the
filesystem, analyzer state, and external build service do. -/
theorem C10_node_build_always_returns_none (dockerRun : String → String → Bool)
    (fs : FS) (st : AnalyzerState) (p : String) (h : pathSuffix p = ".js") :
    build dockerRun fs st p = none := by
  have hjson : lookupGlobal "json" =
      Except.error "NameError: name json is not defined" := rfl
  unfold build
  rw [h]
  rw [if_neg (by decide : ¬ (".js" : String) = ".py")]
  rw [if_neg (by decide : ¬ (".js" : String) = ".java")]
  rw [if_pos rfl]
  unfold buildNodeImage
  rcases hA : analyze st fs p with e | pr
  · rfl
  · rw [hjson]

/-- Witness for C10 at a concrete JavaScript entry file, with an external
build service that would succeed on anything. -/
theorem C10_witness :
    build (fun _ _ => true) [("app.js", { jsRequire := ["express"] })]
      { analyzedPaths := [] } "app.js" = none :=
  C10_node_build_always_returns_none (fun _ _ => true)
    [("app.js", { jsRequire := ["express"] })] { analyzedPaths := [] } "app.js" (by decide)

/-- The dependency recorded for a surviving `requests` import. -/
def depRequests : Dependency :=
  { type := "package", name := "requests", language := "python" }

/-- C1: for every Python entry file whose source is exactly
`import os, requests` (one `ast.Import` node with the two alias names) and
whose directory contains no requirements.txt, a fresh analysis produces
exactly one dependency: the package `requests` tagged `python`, with `os`
excluded because it is in the enumerated standard-library exclusion set. -/
theorem C1_scenarioA_requests_only (fs : FS) (p : String) (fd : FileData)
    (h1 : pathSuffix p = ".py")
    (h2 : lookupFS fs p = some fd)
    (h3 : fd.pyAst = some [PyNode.imp ["os", "requests"]])
    (h4 : lookupFS fs (joinPath (dirname p) "requirements.txt") = none) :
    analyze { analyzedPaths := [] } fs p =
      Except.ok ({ analyzedPaths := [p] }, [depRequests]) := by
  have hsupp : pathSuffix p ∈ supportedExtensions := by rw [h1]; decide
  have hrun : runHandler (pathSuffix p) fd p fs = [depRequests] := by
    rw [h1]
    show analyzePython fd p fs = _
    unfold analyzePython
    rw [h3]
    simp only [h4]
    decide
  unfold analyze
  rw [if_pos hsupp]
  rw [resolve_hit fs [] [] fd (by simp) h2 hsupp]
  rw [hrun]
  show (Except.ok ({ analyzedPaths := (resolve fs [p] [] [depRequests]).1 },
    (resolve fs [p] [] [depRequests]).2.1) : Except String (AnalyzerState × List Dependency)) = _
  rw [resolve_nil]

/-- The filesystem of Scenario A: a single Python file reading
`import os, requests`, no requirements.txt anywhere. -/
def c1FS : FS := [("main.py", { pyAst := some [PyNode.imp ["os", "requests"]] })]

/-- Witness for C1 on the concrete Scenario A filesystem. -/
theorem C1_witness :
    analyze { analyzedPaths := [] } c1FS "main.py" =
      Except.ok ({ analyzedPaths := ["main.py"] }, [depRequests]) :=
  C1_scenarioA_requests_only c1FS "main.py" { pyAst := some [PyNode.imp ["os", "requests"]] }
    (by decide) (by decide) (by decide) (by decide)

/-- A Python entry file whose text fails to parse. -/
def c2FS : FS := [("bad.py", ({ pyAst := none } : FileData))]

/-- Counterexample to C2: the claim says a parse failure of the entry file
surfaces to the caller as a `ParseError` and aborts analysis; in the code the
`except` clause of `_analyze_python` swallows the `SyntaxError`, so `analyze`
on a file whose content does not parse returns a normal (`ok`), empty
dependency set instead of any error. -/
theorem C2_counterexample :
    analyze { analyzedPaths := [] } c2FS "bad.py" =
      Except.ok ({ analyzedPaths := ["bad.py"] }, []) ∧
      lookupFS c2FS "bad.py" = some { pyAst := none } := by
  constructor
  · unfold analyze
    rw [if_pos (by decide)]
    rw [resolve_hit c2FS [] [] { pyAst := none } (by decide) (by decide) (by decide)]
    show (let r := resolve c2FS ["bad.py"] [] []
          Except.ok ({ analyzedPaths := r.1 }, r.2.1) : Except String (AnalyzerState × List Dependency)) = _
    rw [resolve_nil]
  · decide

/-- C2 amended: a parse failure of the Python entry file is caught inside
`_analyze_python` and logged; `analyze` returns normally with an empty
dependency set for that file (the requirements.txt step is also skipped), and
no error reaches the caller. -/
theorem C2_amended_parse_failure_yields_empty_ok (fs : FS) (p : String) (fd : FileData)
    (st : AnalyzerState)
    (h1 : pathSuffix p = ".py")
    (h2 : lookupFS fs p = some fd)
    (h3 : fd.pyAst = none)
    (h4 : p ∉ st.analyzedPaths) :
    analyze st fs p = Except.ok ({ analyzedPaths := st.analyzedPaths ++ [p] }, []) := by
  have hsupp : pathSuffix p ∈ supportedExtensions := by rw [h1]; decide
  have hrun : runHandler (pathSuffix p) fd p fs = [] := by
    rw [h1]
    show analyzePython fd p fs = _
    unfold analyzePython
    rw [h3]
  unfold analyze
  rw [if_pos hsupp]
  rw [resolve_hit fs [] [] fd h4 h2 hsupp]
  rw [hrun]
  show (Except.ok ({ analyzedPaths := (resolve fs (st.analyzedPaths ++ [p]) [] []).1 },
    (resolve fs (st.analyzedPaths ++ [p]) [] []).2.1) : Except String (AnalyzerState × List Dependency)) = _
  rw [resolve_nil]

/-- Witness for the amended C2 at a fresh analyzer and a concrete
parse-failing file. -/
theorem C2_amended_witness :
    analyze { analyzedPaths := [] } [("broken.py", ({ pyAst := none } : FileData))] "broken.py" =
      Except.ok ({ analyzedPaths := [] ++ ["broken.py"] }, []) :=
  C2_amended_parse_failure_yields_empty_ok [("broken.py", { pyAst := none })] "broken.py"
    { pyAst := none } { analyzedPaths := [] } (by decide) (by decide) (by decide) (by decide)

/-- The local-header dependency recorded for `#include "util.h"` resolved in
the entry file's directory. -/
def depUtil : Dependency :=
  { type := "header", name := "util.h", source := some "util.h", language := "cpp" }

/-- The system-header dependency recorded for `#include <vector>`. -/
def depVector : Dependency :=
  { type := "header", name := "vector", language := "cpp" }

/-- C8: for every C++ entry file `main.cpp` whose includes are exactly
`#include "util.h"`, where `util.h` exists in the same directory and its
includes are exactly `#include <vector>` (and no CMakeLists.txt is present),
the final DependencySet contains both the local header dependency (with its
`source` set to the resolved path) and the transitively discovered `vector`
system header. -/
theorem C8_scenarioC_local_header_and_transitive_system_header (fs : FS)
    (fdM fdU : FileData)
    (h1 : lookupFS fs "main.cpp" = some fdM)
    (h2 : fdM.cppIncs = [Inc.loc "util.h"])
    (h3 : lookupFS fs "util.h" = some fdU)
    (h4 : fdU.cppIncs = [Inc.sys "vector"])
    (h5 : lookupFS fs "CMakeLists.txt" = none) :
    analyze { analyzedPaths := [] } fs "main.cpp" =
      Except.ok ({ analyzedPaths := ["main.cpp", "util.h"] }, [depUtil, depVector]) := by
  have hrunM : runHandler (pathSuffix "main.cpp") fdM "main.cpp" fs = [depUtil] := by
    show analyzeCpp fdM "main.cpp" fs = _
    unfold analyzeCpp
    rw [h2]
    simp only [List.filterMap_cons, List.filterMap_nil, List.foldl_cons, List.foldl_nil,
      (by decide : joinPath (dirname "main.cpp") "util.h" = "util.h"),
      (by decide : joinPath (dirname "main.cpp") "CMakeLists.txt" = "CMakeLists.txt"),
      h3, h5, Option.isSome_some, if_true]
    rfl
  have hrunU : runHandler (pathSuffix "util.h") fdU "util.h" fs = [depVector] := by
    show analyzeCpp fdU "util.h" fs = _
    unfold analyzeCpp
    rw [h4]
    simp only [List.filterMap_cons, List.filterMap_nil, List.foldl_cons, List.foldl_nil,
      (by decide : joinPath (dirname "util.h") "CMakeLists.txt" = "CMakeLists.txt"), h5]
    rfl
  have hls : localSources fs [depUtil] = ["util.h"] := by
    unfold localSources
    simp only [List.filterMap_cons, List.filterMap_nil, depUtil, h3, Option.isSome_some, if_true]
  have hls2 : localSources fs [depVector] = [] := by
    unfold localSources
    simp only [List.filterMap_cons, List.filterMap_nil, depVector]
  unfold analyze
  rw [if_pos (by decide : pathSuffix "main.cpp" ∈ supportedExtensions)]
  rw [resolve_hit fs [] [] fdM (by simp) h1 (by decide)]
  simp only [hrunM, hls]
  show (Except.ok ({ analyzedPaths := (resolve fs ["main.cpp"] ["util.h"] [depUtil]).1 },
    (resolve fs ["main.cpp"] ["util.h"] [depUtil]).2.1) : Except String (AnalyzerState × List Dependency)) = _
  rw [resolve_hit fs [] [depUtil] fdU (by decide) h3 (by decide)]
  simp only [hrunU, hls2]
  show (Except.ok ({ analyzedPaths := (resolve fs ["main.cpp", "util.h"] [] [depUtil, depVector]).1 },
    (resolve fs ["main.cpp", "util.h"] [] [depUtil, depVector]).2.1) : Except String (AnalyzerState × List Dependency)) = _
  rw [resolve_nil]

/-- The Scenario C filesystem. -/
def c8FS : FS :=
  [("main.cpp", { cppIncs := [Inc.loc "util.h"] }),
   ("util.h", { cppIncs := [Inc.sys "vector"] })]

/-- Witness for C8 on the concrete Scenario C filesystem. -/
theorem C8_witness :
    analyze { analyzedPaths := [] } c8FS "main.cpp" =
      Except.ok ({ analyzedPaths := ["main.cpp", "util.h"] }, [depUtil, depVector]) :=
  C8_scenarioC_local_header_and_transitive_system_header c8FS
    { cppIncs := [Inc.loc "util.h"] } { cppIncs := [Inc.sys "vector"] }
    (by decide) (by decide) (by decide) (by decide) (by decide)

/-- A one-file C++ filesystem used to exhibit the cross-call state leak. -/
def c9FS : FS := [("prog.cpp", { cppIncs := [Inc.sys "vector"] })]

/-- Counterexample to C9: the claim says each `analyze` call uses its own
isolated visited-path state, so analyzing the same entry twice in succession
yields the same DependencySet both times; but `analyzed_paths` lives on the
instance and is never reset, so the second call on the state produced by the
first returns an empty set while the first returned one dependency. -/
theorem C9_counterexample :
    analyze { analyzedPaths := [] } c9FS "prog.cpp" =
      Except.ok ({ analyzedPaths := ["prog.cpp"] }, [depVector]) ∧
    analyze { analyzedPaths := ["prog.cpp"] } c9FS "prog.cpp" =
      Except.ok ({ analyzedPaths := ["prog.cpp"] }, []) ∧
    [depVector] ≠ ([] : List Dependency) := by
  refine ⟨?_, ?_, by decide⟩
  · unfold analyze
    rw [if_pos (by decide)]
    rw [resolve_hit c9FS [] [] { cppIncs := [Inc.sys "vector"] } (by decide) (by decide) (by decide)]
    show (let r := resolve c9FS ["prog.cpp"] [] [depVector]
          Except.ok ({ analyzedPaths := r.1 }, r.2.1) : Except String (AnalyzerState × List Dependency)) = _
    rw [resolve_nil]
  · unfold analyze
    rw [if_pos (by decide)]
    rw [resolve_mem c9FS [] [] (by decide)]
    rw [resolve_nil]

/-- C9 amended: the visited-path set is instance state that persists across
`analyze` calls; whenever the entry path is already recorded there, `analyze`
returns the unchanged state and an empty DependencySet, so results of a call
are affected by earlier calls on the same instance.  Call isolation holds
only across distinct analyzer instances (fresh states). -/
theorem C9_amended_state_persists_across_calls (fs : FS) (st : AnalyzerState) (p : String)
    (h1 : pathSuffix p ∈ supportedExtensions) (h2 : p ∈ st.analyzedPaths) :
    analyze st fs p = Except.ok (st, []) := by
  unfold analyze
  rw [if_pos h1]
  rw [resolve_mem fs [] [] h2]
  rw [resolve_nil]

/-- Witness for the amended C9: an instance that has already analyzed
`x.py` returns an empty set for it, on any filesystem. -/
theorem C9_amended_witness :
    analyze { analyzedPaths := ["x.py"] } [] "x.py" =
      Except.ok ({ analyzedPaths := ["x.py"] }, []) :=
  C9_amended_state_persists_across_calls [] { analyzedPaths := ["x.py"] } "x.py"
    (by decide) (by decide)

theorem insertDep_nodup {l : List Dependency} (h : l.Nodup) (d : Dependency) :
    (insertDep l d).Nodup := by
  unfold insertDep
  split
  · exact h
  · next hd =>
      refine List.nodup_append.mpr ⟨h, List.nodup_singleton _, ?_⟩
      intro a ha hb
      rw [List.mem_singleton] at hb
      subst hb
      exact hd ha

theorem foldl_insertDep_nodup (ds : List Dependency) :
    ∀ acc : List Dependency, acc.Nodup → (ds.foldl insertDep acc).Nodup := by
  induction ds with
  | nil => intro acc h; exact h
  | cons d rest ih => intro acc h; exact ih _ (insertDep_nodup h d)

theorem resolve_acc_nodup (fs : FS) (visited worklist : List String)
    (acc : List Dependency) (h : acc.Nodup) :
    ((resolve fs visited worklist acc).2.1).Nodup := by
  refine resolve.induct fs (fun visited worklist acc =>
    acc.Nodup → ((resolve fs visited worklist acc).2.1).Nodup)
    ?_ ?_ ?_ ?_ ?_ visited worklist acc h
  · intro visited acc h
    rw [resolve_nil]
    exact h
  · intro visited acc p rest hp ih h
    rw [resolve_mem fs rest acc hp]
    exact ih h
  · intro visited acc p rest hp hl ih h
    rw [resolve_absent fs rest acc hp hl]
    exact ih h
  · intro visited acc p rest hp fd hl h3 direct ih h
    rw [resolve_hit fs rest acc fd hp hl h3]
    show ((resolve fs (visited ++ [p])
      (localSources fs (runHandler (pathSuffix p) fd p fs) ++ rest)
      (List.foldl insertDep acc (runHandler (pathSuffix p) fd p fs))).2.1).Nodup
    exact ih (foldl_insertDep_nodup _ acc h)
  · intro visited acc p rest hp fd hl h3 ih h
    rw [resolve_nohandler fs rest acc fd hp hl h3]
    exact ih h

/-- A filesystem on which two distinct copies of a header name are resolved
from different directories: the entry includes `util.h` and `sub/helper.h`,
and `sub/helper.h` includes its own sibling `util.h`. -/
def c4FS : FS :=
  [("main.cpp", { cppIncs := [Inc.loc "util.h", Inc.loc "sub/helper.h"] }),
   ("util.h", ({} : FileData)),
   ("sub/helper.h", { cppIncs := [Inc.loc "util.h"] }),
   ("sub/util.h", ({} : FileData))]

/-- The dependency recorded for `#include "sub/helper.h"` in the entry. -/
def depHelper : Dependency :=
  { type := "header", name := "sub/helper.h", source := some "sub/helper.h", language := "cpp" }

/-- The dependency recorded for `#include "util.h"` inside `sub/helper.h`,
resolved to `sub/util.h`. -/
def depUtilSub : Dependency :=
  { type := "header", name := "util.h", source := some "sub/util.h", language := "cpp" }

/-- Full evaluation of the analysis of `c4FS`. -/
theorem c4FS_analyze :
    analyze { analyzedPaths := [] } c4FS "main.cpp" =
      Except.ok ({ analyzedPaths := ["main.cpp", "util.h", "sub/helper.h", "sub/util.h"] },
        [depUtil, depHelper, depUtilSub]) := by
  unfold analyze
  rw [if_pos (by decide)]
  rw [resolve_hit c4FS [] [] { cppIncs := [Inc.loc "util.h", Inc.loc "sub/helper.h"] }
    (by decide) (by decide) (by decide)]
  show (let r := resolve c4FS ["main.cpp"] ["util.h", "sub/helper.h"] [depUtil, depHelper]
        Except.ok ({ analyzedPaths := r.1 }, r.2.1) : Except String (AnalyzerState × List Dependency)) = _
  rw [resolve_hit c4FS ["sub/helper.h"] [depUtil, depHelper] ({} : FileData)
    (by decide) (by decide) (by decide)]
  show (let r := resolve c4FS ["main.cpp", "util.h"] ["sub/helper.h"] [depUtil, depHelper]
        Except.ok ({ analyzedPaths := r.1 }, r.2.1) : Except String (AnalyzerState × List Dependency)) = _
  rw [resolve_hit c4FS [] [depUtil, depHelper] { cppIncs := [Inc.loc "util.h"] }
    (by decide) (by decide) (by decide)]
  show (let r := resolve c4FS ["main.cpp", "util.h", "sub/helper.h"] ["sub/util.h"]
          [depUtil, depHelper, depUtilSub]
        Except.ok ({ analyzedPaths := r.1 }, r.2.1) : Except String (AnalyzerState × List Dependency)) = _
  rw [resolve_hit c4FS [] [depUtil, depHelper, depUtilSub] ({} : FileData)
    (by decide) (by decide) (by decide)]
  show (let r := resolve c4FS ["main.cpp", "util.h", "sub/helper.h", "sub/util.h"] []
          [depUtil, depHelper, depUtilSub]
        Except.ok ({ analyzedPaths := r.1 }, r.2.1) : Except String (AnalyzerState × List Dependency)) = _
  rw [resolve_nil]

/-- Counterexample to C4: the claim says the returned DependencySet never
holds two entries agreeing on `(kind, name, version, language)` but differing
in `source_path`; yet on `c4FS` the result of `analyze` contains both
`depUtil` and `depUtilSub`, which share the identity tuple
`(header, util.h, none, cpp)` and differ only in their `source`.  Python-set
deduplication uses the dataclass-generated full-field `__eq__`, not the
4-tuple the custom `__hash__` suggests. -/
theorem C4_counterexample :
    analyze { analyzedPaths := [] } c4FS "main.cpp" =
      Except.ok ({ analyzedPaths := ["main.cpp", "util.h", "sub/helper.h", "sub/util.h"] },
        [depUtil, depHelper, depUtilSub]) ∧
    depUtil ∈ [depUtil, depHelper, depUtilSub] ∧
    depUtilSub ∈ [depUtil, depHelper, depUtilSub] ∧
    idTuple depUtil = idTuple depUtilSub ∧
    depUtil.source ≠ depUtilSub.source :=
  ⟨c4FS_analyze, by decide, by decide, by decide, by decide⟩

/-- C4 amended: the DependencySet returned by `analyze` contains no two
entries that agree on every field (the dataclass equality, which includes
`source_path`); entries agreeing on `(kind, name, version, language)` alone
may coexist when their `source_path` differs. -/
theorem C4_amended_no_duplicate_full_entries (st : AnalyzerState) (fs : FS) (p : String)
    (st' : AnalyzerState) (res : List Dependency)
    (h : analyze st fs p = Except.ok (st', res)) : res.Nodup := by
  unfold analyze at h
  by_cases hs : pathSuffix p ∈ supportedExtensions
  · rw [if_pos hs] at h
    injection h with h2
    rw [Prod.mk.injEq] at h2
    rcases h2 with ⟨_, hres⟩
    rw [← hres]
    exact resolve_acc_nodup fs st.analyzedPaths [p] [] List.nodup_nil
  · rw [if_neg hs] at h
    cases h

/-- Witness for the amended C4 on the `c4FS` analysis. -/
theorem C4_amended_witness :
    ([depUtil, depHelper, depUtilSub] : List Dependency).Nodup :=
  C4_amended_no_duplicate_full_entries { analyzedPaths := [] } c4FS "main.cpp"
    { analyzedPaths := ["main.cpp", "util.h", "sub/helper.h", "sub/util.h"] }
    [depUtil, depHelper, depUtilSub] c4FS_analyze

/-- Scenario B filesystem: the entry imports flask and a sibling
requirements.txt pins `flask==2.0.1`. -/
def c6FS : FS :=
  [("app.py", { pyAst := some [PyNode.imp ["flask"]] }),
   ("requirements.txt", { reqLines := ["flask==2.0.1"] })]

/-- Scenario B variant without the bare import. -/
def c6FSnoImport : FS :=
  [("app.py", { pyAst := some [] }),
   ("requirements.txt", { reqLines := ["flask==2.0.1"] })]

/-- The dependency the analyzer records for flask: the requirements.txt
parser strips the version operators and keeps no version. -/
def depFlask : Dependency :=
  { type := "package", name := "flask", language := "python" }

/-- Full evaluation of the analysis of `c6FS`. -/
theorem c6FS_analyze :
    analyze { analyzedPaths := [] } c6FS "app.py" =
      Except.ok ({ analyzedPaths := ["app.py"] }, [depFlask]) := by
  unfold analyze
  rw [if_pos (by decide)]
  rw [resolve_hit c6FS [] [] { pyAst := some [PyNode.imp ["flask"]] }
    (by decide) (by decide) (by decide)]
  show (let r := resolve c6FS ["app.py"] [] [depFlask]
        Except.ok ({ analyzedPaths := r.1 }, r.2.1) : Except String (AnalyzerState × List Dependency)) = _
  rw [resolve_nil]

/-- Full evaluation of the analysis of `c6FSnoImport`. -/
theorem c6FSnoImport_analyze :
    analyze { analyzedPaths := [] } c6FSnoImport "app.py" =
      Except.ok ({ analyzedPaths := ["app.py"] }, [depFlask]) := by
  unfold analyze
  rw [if_pos (by decide)]
  rw [resolve_hit c6FSnoImport [] [] { pyAst := some [] }
    (by decide) (by decide) (by decide)]
  show (let r := resolve c6FSnoImport ["app.py"] [] [depFlask]
        Except.ok ({ analyzedPaths := r.1 }, r.2.1) : Except String (AnalyzerState × List Dependency)) = _
  rw [resolve_nil]

/-- Counterexample to C6: the claim says the synthesized requirements file
pins flask to 2.0.1 (emits the line `flask==2.0.1`); but the analyzer strips
the version operators from the requirements line and records no version, so
`_build_python_image` writes the single unconstrained line `flask` — the
pinned line appears nowhere in the written manifest. -/
theorem C6_counterexample :
    analyze { analyzedPaths := [] } c6FS "app.py" =
      Except.ok ({ analyzedPaths := ["app.py"] }, [depFlask]) ∧
    requirementsText [depFlask] = "flask\n" ∧
    "flask==2.0.1" ∉ splitString '\n' (requirementsText [depFlask]) :=
  ⟨c6FS_analyze, by decide, by decide⟩

/-- C6 amended: for the Scenario B filesystem the synthesized requirements
file emits `flask` unconstrained (no `==2.0.1` pin), because requirements.txt
parsing strips the version-comparison operators and records no version — and
this is the same regardless of whether flask also appears as a bare import. -/
theorem C6_amended_manifest_emits_unpinned_flask :
    analyze { analyzedPaths := [] } c6FS "app.py" =
      Except.ok ({ analyzedPaths := ["app.py"] }, [depFlask]) ∧
    analyze { analyzedPaths := [] } c6FSnoImport "app.py" =
      Except.ok ({ analyzedPaths := ["app.py"] }, [depFlask]) ∧
    requirementsText [depFlask] = "flask\n" ∧
    depFlask.version = none :=
  ⟨c6FS_analyze, c6FSnoImport_analyze, by decide, by decide⟩

/-- Concatenation of a list of strings. -/
def concatAll : List String → String
  | [] => ""
  | x :: xs => x ++ concatAll xs

/-- The `package`-typed entries of a dependency list, in enumeration order:
exactly the entries the python manifest writer emits. -/
def packageEntries : List Dependency → List Dependency
  | [] => []
  | d :: r => if d.type = "package" then d :: packageEntries r else packageEntries r

theorem requirementsText_enumeration (l : List Dependency) :
    requirementsText l = concatAll ((packageEntries l).map renderRequirement) := by
  have aux : ∀ (l : List Dependency) (s : String),
      l.foldl (fun acc dep => if dep.type = "package" then acc ++ renderRequirement dep else acc) s
        = s ++ concatAll ((packageEntries l).map renderRequirement) := by
    intro l
    induction l with
    | nil =>
      intro s
      rw [List.foldl_nil]
      show s = s ++ concatAll (List.map renderRequirement [])
      rw [List.map_nil]
      show s = s ++ ""
      rw [String.append_empty]
    | cons d r ih =>
      intro s
      rw [List.foldl_cons]
      show _ = s ++ concatAll (List.map renderRequirement (packageEntries (d :: r)))
      rw [packageEntries]
      by_cases hd : d.type = "package"
      · rw [if_pos hd, if_pos hd, ih]
        show (s ++ renderRequirement d) ++ _ =
          s ++ concatAll (List.map renderRequirement (d :: packageEntries r))
        rw [List.map_cons]
        show _ = s ++ (renderRequirement d ++ concatAll (List.map renderRequirement (packageEntries r)))
        rw [String.append_assoc]
      · rw [if_neg hd, if_neg hd, ih]
  unfold requirementsText
  rw [aux, String.empty_append]

/-- The python-side dependencies of Scenario-like analyses used to exhibit
order dependence: two distinct package names. -/
def depZeta : Dependency := { type := "package", name := "zeta", language := "python" }

/-- Second package name for the order-dependence counterexample. -/
def depAlpha : Dependency := { type := "package", name := "alpha", language := "python" }

/-- Counterexample to C7: the claim says that for a fixed DependencySet the
generated manifest is byte-identical across invocations and its entries are
ordered by name; but the writer emits the entries in whatever order the
Python set is enumerated (`list(dependencies)`): the two enumerations of the
same two-element set yield different bytes, and the emitted lines follow the
enumeration (`zeta` before `alpha`), not the name order. -/
theorem C7_counterexample :
    ([depZeta, depAlpha] : List Dependency).Perm [depAlpha, depZeta] ∧
    requirementsText [depZeta, depAlpha] ≠ requirementsText [depAlpha, depZeta] ∧
    splitString '\n' (requirementsText [depZeta, depAlpha]) = ["zeta", "alpha", ""] :=
  ⟨List.Perm.swap depAlpha depZeta [], by decide, by decide⟩

/-- C7 amended: descriptor generation is deterministic only in what it
actually reads — the Dockerfile text depends on nothing but the entry file's
basename, and the manifest text is exactly the `package` entries rendered in
the enumeration order of the dependency list, so byte-identical output is
guaranteed only for identical enumeration orders, and no sorting by name
takes place. -/
theorem C7_amended_manifest_follows_enumeration_order (l : List Dependency)
    (p q : String) (h : basename p = basename q) :
    requirementsText l = concatAll ((packageEntries l).map renderRequirement) ∧
    pythonDockerfile p = pythonDockerfile q := by
  refine ⟨requirementsText_enumeration l, ?_⟩
  unfold pythonDockerfile generateDockerfile
  rw [h]

/-- Witness for the amended C7: the enumeration equation at a concrete
two-element list, and basename-only dependence of the Dockerfile at two
paths sharing a basename. -/
theorem C7_amended_witness :
    requirementsText [depZeta, depAlpha] =
      concatAll ((packageEntries [depZeta, depAlpha]).map renderRequirement) ∧
    pythonDockerfile "dir/app.py" = pythonDockerfile "app.py" :=
  C7_amended_manifest_follows_enumeration_order [depZeta, depAlpha] "dir/app.py" "app.py"
    (by decide)

end AirSeal



